import Mathlib

/-!
Shallow embedding of the record consolidation and enrichment pipeline of the
webcam-metadata repository (classify_records.py, merge_webcams.py,
merge_webcamtaxi.py, retry_webcamtaxi_iframes.py, skyline_geocoder.py,
smart_geocoder.py), together with theorems settling the spec claims.

Text is modelled as `List Char` (Python `str`).  Python's `str.lower`,
`str.upper` and `str.title` are modelled with Lean's ASCII-only
`Char.toLower`/`Char.toUpper`; all keyword tables and country tables in the
sources are ASCII, so this matches Python on every character the tables can
ever compare against.  Python `int` is modelled as `Int`, Python `float` as
`ℚ` (the comparisons performed by the code are order comparisons, which the
embedding preserves exactly on the decimal literals involved).
-/

namespace Webcam

/-- Python `str`, as a list of characters. -/
abbrev Str := List Char

/-- Character list of a Lean string literal. -/
def str (x : String) : Str := x.data

/-- Character lists of a list of string literals. -/
def ws (l : List String) : List Str := l.map String.data

/-- Python `text.lower()` (ASCII model). -/
def pyLower (s : Str) : Str := s.map Char.toLower

/-- Python whitespace characters recognised by `str.split()` / `str.strip()`. -/
def isPySpace (c : Char) : Bool :=
  c == ' ' || c == '\t' || c == '\n' || c == '\x0d' || c == Char.ofNat 11 || c == Char.ofNat 12

/-- Python `pat in hay` on strings: contiguous-substring test. -/
def hasSub : Str → Str → Bool
  | [], pat => pat.isEmpty
  | c :: t, pat => pat.isPrefixOf (c :: t) || hasSub t pat

/-- Python `s.startswith(p)`. -/
def startsWithStr (s p : Str) : Bool := p.isPrefixOf s

/-- Python `text.split()`: split on runs of whitespace, dropping empty pieces. -/
def splitWs (s : Str) : List Str :=
  let p := s.foldr
    (fun c acc =>
      if isPySpace c then (([] : Str), if acc.1.isEmpty then acc.2 else acc.1 :: acc.2)
      else (c :: acc.1, acc.2))
    (([] : Str), ([] : List Str))
  if p.1.isEmpty then p.2 else p.1 :: p.2

/-- Python `" ".join(l)`. -/
def joinSpace (l : List Str) : Str := List.intercalate (str " ") l

/-- A word character of the regex `\w` (ASCII alphanumerics, underscore; code
points ≥ 128 stand for the non-ASCII word characters of Python's re.UNICODE
default — every non-ASCII character appearing in the keyword tables is a
letter). -/
def isWordChar (c : Char) : Bool := c.isAlphanum || c == '_' || decide (128 ≤ c.toNat)

/-- One candidate position for `re.search(r'\b<kw>\b', hay)`: the keyword
occurs at offset `i` and both ends sit on a word boundary (every keyword in the
tables consists solely of word characters, so `\b` at each end means the
neighbouring character, if any, is a non-word character). -/
def wordMatchAt (hay pat : Str) (i : Nat) : Bool :=
  ((hay.drop i).take pat.length == pat)
    && (i == 0 || !(isWordChar (hay.getD (i - 1) ' ')))
    && (i + pat.length == hay.length || !(isWordChar (hay.getD (i + pat.length) ' ')))

/-- Python `re.search(r'\b' + re.escape(kw) + r'\b', hay)` for an all-word-char
keyword `kw`. -/
def wordMatch (pat hay : Str) : Bool :=
  (List.range (hay.length + 1)).any (wordMatchAt hay pat)

/-! Embedding of classify_records.py. -/

/-- SPECIFIC_KEYWORDS of classify_records.py (lines 27-50). -/
def SPECIFIC_KEYWORDS : List Str := ws [
  "beach", "playa", "sands", "reef", "cove", "bay",
  "plaza", "square", "piazza", "platz",
  "church", "cathedral", "basilica", "chapel", "mosque", "parish",
  "lighthouse", "faro",
  "pier", "dock", "wharf", "marina", "harbour", "harbor", "port",
  "airport", "runway", "station",
  "bridge", "puente",
  "monument", "obelisk", "statue", "memorial", "fountain",
  "tower", "castle", "fortress", "fort",
  "park", "garden", "zoo",
  "museum", "theater", "theatre", "stadium",
  "market", "shop", "restaurant", "bar", "cafe",
  "waterfall", "canyon", "cave", "volcano",
  "temple", "shrine", "monastery",
  "pool", "resort",
  "ski", "slope",
  "nest", "cahow", "falcon",
  "underwater", "coral",
  "crossing", "road", "street", "avenue", "avenida",
  "village", "köyü",
  "clock",
  "inspection"]

/-- VAGUE_KEYWORDS of classify_records.py (lines 53-57). -/
def VAGUE_KEYWORDS : List Str := ws [
  "panorama", "panoramic", "skyline",
  "northern lights",
  "traffic"]

/-- The combined lowercase text `(h1 + " " + h2).lower()`. -/
def combinedText (h1 h2 : Str) : Str := pyLower (h1 ++ ' ' :: h2)

/-- The if/elif radius chain of classify_record (lines 82-132), as an ordered
first-match rule table: each Python `elif` arm in order, the guard as a
boolean test on the matched keyword.  The tuple arms are tuple membership;
the single-string arms (`kw in ("station")` etc.) parenthesize a string, not
a tuple, so they are Python substring tests and are embedded as such. -/
def SPECIFIC_RULES : List ((Str → Bool) × String × Int) := [
  (fun kw => (ws ["beach", "playa", "sands", "cove", "bay", "reef"]).contains kw,
    ("automatic", 200)),
  (fun kw => (ws ["plaza", "square", "piazza", "platz", "fountain",
                  "monument", "obelisk", "statue", "memorial"]).contains kw,
    ("automatic", 100)),
  (fun kw => (ws ["church", "cathedral", "basilica", "chapel",
                  "mosque", "parish", "temple", "shrine", "monastery"]).contains kw,
    ("automatic", 100)),
  (fun kw => (ws ["lighthouse", "faro"]).contains kw, ("automatic", 50)),
  (fun kw => (ws ["pier", "dock", "wharf", "marina"]).contains kw, ("automatic", 150)),
  (fun kw => (ws ["harbour", "harbor", "port"]).contains kw, ("automatic", 300)),
  (fun kw => (ws ["airport", "runway"]).contains kw, ("automatic", 500)),
  (fun kw => hasSub (str "station") kw, ("automatic", 200)),
  (fun kw => (ws ["bridge", "puente"]).contains kw, ("automatic", 200)),
  (fun kw => (ws ["tower", "castle", "fortress", "fort"]).contains kw, ("automatic", 150)),
  (fun kw => (ws ["park", "garden", "zoo"]).contains kw, ("automatic", 300)),
  (fun kw => (ws ["museum", "theater", "theatre", "stadium"]).contains kw, ("automatic", 200)),
  (fun kw => (ws ["market", "shop", "restaurant", "bar", "cafe"]).contains kw,
    ("automatic", 100)),
  (fun kw => (ws ["waterfall", "canyon", "cave"]).contains kw, ("automatic", 300)),
  (fun kw => hasSub (str "volcano") kw, ("automatic", 500)),
  (fun kw => (ws ["pool", "resort"]).contains kw, ("automatic", 200)),
  (fun kw => (ws ["ski", "slope"]).contains kw, ("automatic", 500)),
  (fun kw => (ws ["nest", "cahow", "falcon"]).contains kw, ("manual", 500)),
  (fun kw => (ws ["underwater", "coral"]).contains kw, ("manual", 300)),
  (fun kw => (ws ["crossing", "road", "street", "avenue", "avenida"]).contains kw,
    ("automatic", 200)),
  (fun kw => (ws ["village", "köyü"]).contains kw, ("automatic", 500)),
  (fun kw => hasSub (str "clock") kw, ("automatic", 100)),
  (fun kw => hasSub (str "inspection") kw, ("manual", 500))]

/-- Radius lookup for a matched specific keyword (classify_record lines
82-132): first arm whose guard accepts the keyword wins; the final `else`
yields `("automatic", 200)`. -/
def specificResult (kw : Str) : String × Int :=
  match SPECIFIC_RULES.find? (fun rule => rule.1 kw) with
  | some rule => rule.2
  | none => ("automatic", 200)

/-- Characters accepted by the class `[\s\w,\.\'-áéíóúñüçê]` of the generic-h2
regex of classify_record (line 147).  The raw class contains the range
`'\''-'á'` (code points 39-225); the remaining accented letters are listed
individually. -/
def genericClassChar (c : Char) : Bool :=
  isPySpace c || isWordChar c || c == ',' || c == '.'
    || (decide (39 ≤ c.toNat) && decide (c.toNat ≤ 225))
    || c ∈ ['é', 'í', 'ó', 'ú', 'ñ', 'ü', 'ç', 'ê']

/-- The alternatives of the leading group of the generic-h2 regex. -/
def genericPrefixes : List Str :=
  ws ["view from", "view of", "view over", "view on", "panoramic view"]

/-- Python `re.match(r"^(view (from|of|over|on)|panoramic view)[...]+$", h2)`
(line 146-149): some alternative is a prefix and the non-empty remainder
consists of class characters.  (The `$`-before-final-newline corner of Python
regexes is not modelled; titles carry no newlines.) -/
def genericH2 (h2 : Str) : Bool :=
  genericPrefixes.any fun p =>
    p.isPrefixOf h2 && !(h2.drop p.length).isEmpty && (h2.drop p.length).all genericClassChar

/-- classify_record of classify_records.py (lines 67-162). -/
def classify_record (h1 h2 : Str) : String × Int :=
  if VAGUE_KEYWORDS.any (fun kw => hasSub (combinedText h1 h2) kw) then ("manual", 2500)
  else
    match SPECIFIC_KEYWORDS.find? (fun kw => wordMatch kw (combinedText h1 h2)) with
    | some kw => specificResult kw
    | none =>
      if genericH2 (pyLower h2)
          && !(SPECIFIC_KEYWORDS.any fun kw => wordMatch kw (combinedText h1 h2)) then
        ("manual", 2000)
      else ("automatic", 500)

/-- estimate_radius_for_manual of classify_records.py (lines 165-183). -/
def estimate_radius_for_manual (h1 h2 : Str) : Int :=
  if (ws ["beach", "playa", "plaza", "square", "pier", "lighthouse"]).any
      (fun kw => hasSub (combinedText h1 h2) kw) then 200
  else if (ws ["panorama", "panoramic", "skyline"]).any
      (fun kw => hasSub (combinedText h1 h2) kw) then 2500
  else if hasSub (combinedText h1 h2) (str "traffic") then 500
  else 1500

/-- An input record of classify_records.py main (a JSON array
`[h1, h2, url, tag?, radius?]`; a missing third/fourth element is encoded as
`none`, missing text as `""` following the `len`-guarded reads of lines
198-213). -/
structure RawRecord where
  h1 : Str
  h2 : Str
  url : Str
  tag : Option String
  radius : Option Int
deriving DecidableEq

/-- The drop test of classify_records.py main (line 202). -/
def isIndexPage (h1 : Str) : Bool :=
  startsWithStr (pyLower h1) (str "live cams in")
    || startsWithStr (pyLower h1) (str "liva cams in")

/-- The per-record body of the main loop of classify_records.py
(lines 197-227): `none` encodes `continue` without appending. -/
def processRecord (r : RawRecord) : Option RawRecord :=
  if isIndexPage r.h1 then none
  else if r.tag = some "manual" then
    some (if r.radius = none
          then { r with radius := some (estimate_radius_for_manual r.h1 r.h2) }
          else r)
  else
    some { r with tag := some (classify_record r.h1 r.h2).1,
                  radius := some (classify_record r.h1 r.h2).2 }

/-- One country's records through the main loop of classify_records.py. -/
def processRecords (rs : List RawRecord) : List RawRecord := rs.filterMap processRecord

/-! Canonical record schema (merge_webcams.py / merge_webcamtaxi.py). -/

/-- The canonical WebcamRecord dictionary. -/
structure WebRecord where
  title : Str
  subtitle : Str
  url : Option Str
  mode : String
  radius : Option Int
  latitude : Option ℚ
  longitude : Option ℚ
  verified : Option Bool
  source : String
  subregion : Option Str
deriving DecidableEq

/-- A transformed webcamtaxi record before iframe extraction: the canonical
record plus the internal `_page_url` / `_fallback_url` fields that
merge_webcamtaxi.py deletes after applying the fetch result (lines 278-280). -/
structure WctItem where
  record : WebRecord
  pageUrl : Str
  fallbackUrl : Str
deriving DecidableEq

/-- VERIFIED_RADIUS (merge_webcams.py line 29, merge_webcamtaxi.py line 30,
retry_webcamtaxi_iframes.py line 25). -/
def VERIFIED_RADIUS : Int := 10

/-- UNVERIFIED_RADIUS (merge_webcams.py line 30, merge_webcamtaxi.py line 31,
retry_webcamtaxi_iframes.py line 26). -/
def UNVERIFIED_RADIUS : Int := 200

/-- Result of fetch_iframe_url of merge_webcamtaxi.py (lines 114-137):
the extracted iframe src, if any, and the success flag. -/
structure FetchResult where
  iframe : Option Str
  success : Bool
deriving DecidableEq

/-- Truthiness of `success and iframe_url` (merge_webcamtaxi.py line 267,
retry_webcamtaxi_iframes.py line 159): Python treats both `None` and the empty
string as false. -/
def fetchOk (o : FetchResult) : Bool := o.success && !(o.iframe.getD []).isEmpty

/-- The apply-results body of merge_webcamtaxi.py main (lines 265-280),
including the deletion of the internal fields (projection to the canonical
record). -/
def applyWct (it : WctItem) (o : FetchResult) : WebRecord :=
  let r := it.record
  if fetchOk o then
    { r with url := some (o.iframe.getD []),
             verified := some true,
             radius := some VERIFIED_RADIUS }
  else
    { r with url := some it.fallbackUrl,
             verified := some false,
             radius := some UNVERIFIED_RADIUS }

/-- The apply-verification body of merge_webcams.py main (lines 180-188). -/
def applyEw (r : WebRecord) (ok : Bool) : WebRecord :=
  { r with verified := some ok,
           radius := some (if ok then VERIFIED_RADIUS else UNVERIFIED_RADIUS) }

/-! Concurrent worker pool (merge_webcams.py lines 163-178,
merge_webcamtaxi.py lines 247-262)

Each future is keyed by a record index; `as_completed` yields the futures in
an arbitrary completion order, and each result is stored into a slot of a
results array indexed by that key.  `collectResults` models the collection
loop: `outcomes i` is the (network-determined) result of record `i`'s own
request, and the list argument is the completion order. -/

/-- The result-collection loop: fill the slot of each completed index. -/
def collectResults {α : Type} (outcomes : Nat → α) :
    List Nat → (Nat → Option α) → Nat → Option α
  | [], acc => acc
  | i :: t, acc =>
    collectResults outcomes t (fun j => if j = i then some (outcomes i) else acc j)

/-- The sequential apply-results loop over the collected slots, from index `i`
on.  The `bad` branch is unreachable when every index completed (the Python
code would raise when unpacking the `None` slot). -/
def applyAll {ρ σ α : Type} (f : ρ → α → σ) (bad : ρ → σ)
    (res : Nat → Option α) : Nat → List ρ → List σ
  | _, [] => []
  | i, r :: t => (match res i with
                  | some o => f r o
                  | none => bad r) :: applyAll f bad res (i + 1) t

/-- The whole worker phase: collect results in completion order, then apply
them in index order. -/
def runWorkers {ρ σ α : Type} (f : ρ → α → σ) (bad : ρ → σ)
    (rs : List ρ) (outcomes : Nat → α) (completions : List Nat) : List σ :=
  applyAll f bad (collectResults outcomes completions (fun _ => none)) 0 rs

/-- Order-free reference for the worker phase: record `i` simply receives its
own outcome. -/
def applyPure {ρ σ α : Type} (f : ρ → α → σ) (outcomes : Nat → α) :
    Nat → List ρ → List σ
  | _, [] => []
  | i, r :: t => f r (outcomes i) :: applyPure f outcomes (i + 1) t

/-! Merge into the combined dataset (merge_webcams.py lines 193-207,
merge_webcamtaxi.py lines 285-292)

The combined dataset maps a canonical country name to its bucket; a country
not yet present holds the empty bucket (`combined[country] = []` on first
touch).  Each transformed `(country, record)` pair is appended to its
country's bucket in order. -/

/-- The merge loop over the transformed `(country, record)` pairs. -/
def mergeAppend {α : Type} (buckets : Str → List α) (items : List (Str × α)) :
    Str → List α :=
  items.foldl (fun acc cr c => if c = cr.1 then acc c ++ [cr.2] else acc c) buckets

/-! Embedding of retry_webcamtaxi_iframes.py. -/

/-- Result of fetch_iframe_url of retry_webcamtaxi_iframes.py (lines 80-105):
iframe src, HTTP status (0 = timeout, -1 = other error) and success flag. -/
structure RetryResult where
  iframe : Option Str
  status : Int
  success : Bool
deriving DecidableEq

/-- Truthiness of `success and iframe_url` for a retry result (line 159). -/
def retryOk (o : RetryResult) : Bool := o.success && !(o.iframe.getD []).isEmpty

/-- The retry-target test of retry_webcamtaxi_iframes.py (line 120):
`rec.get("source") == "WCT" and rec.get("verified") is False`. -/
def isRetryTarget (r : WebRecord) : Bool := r.source == "WCT" && r.verified == some false

/-- The target-collection loop (lines 117-121). -/
def selectTargets (rs : List WebRecord) : List WebRecord := rs.filter isRetryTarget

/-- The apply-results body of the retry pass (lines 157-165): on success the
url/verified/radius fields are rewritten, on failure the record is not
touched. -/
def applyRetry (r : WebRecord) (o : RetryResult) : WebRecord :=
  if retryOk o then
    { r with url := some (o.iframe.getD []),
             verified := some true,
             radius := some VERIFIED_RADIUS }
  else r

/-- The whole retry pass over the dataset: exactly the records selected as
targets receive their fetch result (`fetch r` is the network outcome of
record `r`'s url); all other records pass through untouched. -/
def retryPass (fetch : WebRecord → RetryResult) (rs : List WebRecord) :
    List WebRecord :=
  rs.map fun r => if isRetryTarget r then applyRetry r (fetch r) else r

/-! Geocoding (skyline_geocoder.py / smart_geocoder.py). -/

/-- A geometry viewport returned by the place lookup. -/
structure Viewport where
  ne_lat : ℚ
  ne_lng : ℚ
  sw_lat : ℚ
  sw_lng : ℚ
deriving DecidableEq

/-- MAX_VIEWPORT_SPAN_DEG (skyline_geocoder.py line 27, smart_geocoder.py
line 20). -/
def MAX_VIEWPORT_SPAN_DEG : ℚ := 0.02

/-- The viewport-based area test of geocode_query (skyline_geocoder.py lines
99-111, smart_geocoder.py lines 187-196): `none` models a response with no
viewport (or an empty northeast/southwest), which leaves `is_area = False`. -/
def isAreaResult (vp : Option Viewport) : Bool :=
  match vp with
  | none => false
  | some v =>
    decide (|v.ne_lat - v.sw_lat| > MAX_VIEWPORT_SPAN_DEG
      ∨ |v.ne_lng - v.sw_lng| > MAX_VIEWPORT_SPAN_DEG)

/-- A successful geocode result as consumed by the two driver scripts. -/
structure GeoResult where
  lat : ℚ
  lng : ℚ
  is_area : Bool
deriving DecidableEq

/-- A skyline record `[h1, h2, url, tag, radius]` entering the geocoding
loop of skyline_geocoder.py. -/
structure SkyRecord where
  h1 : Str
  h2 : Str
  url : Str
  tag : String
  radius : Int
deriving DecidableEq

/-- A geocoded skyline record `[h1, h2, url, tag, radius, lat, lng]`. -/
structure SkyGeoRecord where
  h1 : Str
  h2 : Str
  url : Str
  tag : String
  radius : Int
  lat : ℚ
  lng : ℚ
deriving DecidableEq

/-- The enrichment body of skyline_geocoder.py main for a resolved lookup
(lines 175-198): keep the first five fields, re-mark the tag `manual` when the
result is an area, and append the coordinates. -/
def skylineApply (r : SkyRecord) (g : GeoResult) : SkyGeoRecord :=
  { h1 := r.h1, h2 := r.h2, url := r.url,
    tag := if g.is_area then "manual" else r.tag,
    radius := r.radius, lat := g.lat, lng := g.lng }

/-- The enrichment body of smart_geocoder.py main for a resolved lookup
(lines 267-279): store the coordinates; mark `verified = True` only for a
point result, leaving an area result for manual review. -/
def smartApply (r : WebRecord) (g : GeoResult) : WebRecord :=
  if g.is_area then
    { r with latitude := some g.lat, longitude := some g.lng }
  else
    { r with latitude := some g.lat, longitude := some g.lng,
             verified := some true }

/-! Query extraction (skyline_geocoder.py lines 21-68). -/

/-- STOPWORDS of skyline_geocoder.py (line 21). -/
def STOPWORDS : List Str := ws ["skylinewebcams", "cam", "cams", "live", "in"]

/-- clean_words of skyline_geocoder.py (lines 30-41): lowercase, split on
whitespace, strip hyphens inside each word, drop stopwords and empties. -/
def clean_words (text : Str) : List Str :=
  ((splitWs (pyLower text)).map (fun w => w.filter (fun c => !(c == '-')))).filter
    (fun w => !w.isEmpty && !(STOPWORDS.contains w))

/-- The common-word selection of extract_search_query (lines 57-64): words of
`h1w` also appearing in `h2w`, preserving h1 order, first occurrence only. -/
def commonWords (h1w h2w : List Str) : List Str :=
  h1w.foldl (fun acc w => if h2w.contains w && !(acc.contains w) then acc ++ [w] else acc) []

/-- extract_search_query of skyline_geocoder.py (lines 44-68). -/
def extract_search_query (h1 h2 : Str) : Option Str :=
  if (clean_words h1).isEmpty || (clean_words h2).isEmpty then none
  else if (commonWords (clean_words h1) (clean_words h2)).isEmpty then none
  else some (joinSpace (commonWords (clean_words h1) (clean_words h2)))

/-! Country canonicalization. -/

/-- COUNTRY_SLUG_MAP of merge_webcamtaxi.py (lines 34-62). -/
def COUNTRY_SLUG_MAP : List (Str × Str) :=
  [("england", "United Kingdom"),
   ("scotland", "United Kingdom"),
   ("wales", "United Kingdom"),
   ("usa", "United States"),
   ("czech-republic", "Czech Republic"),
   ("bosnia-herzegovina", "Bosnia and Herzegovina"),
   ("virgin-islands", "British Virgin Islands"),
   ("saint-barthelemy", "Saint Barthelemy"),
   ("saint-martin", "Sint Maarten"),
   ("united-arab-emirates", "United Arab Emirates"),
   ("south-africa", "South Africa"),
   ("south-korea", "South Korea"),
   ("new-zealand", "New Zealand"),
   ("north-macedonia", "North Macedonia"),
   ("french-polynesia", "French Polynesia"),
   ("costa-rica", "Costa Rica"),
   ("dominican-republic", "Dominican Republic"),
   ("el-salvador", "El Salvador"),
   ("dr-congo", "DR Congo"),
   ("saudi-arabia", "Saudi Arabia"),
   ("cape-verde", "Cape Verde"),
   ("cayman-islands", "Cayman Islands"),
   ("anguilla-island", "Anguilla"),
   ("turks-and-caicos-islands", "Turks And Caicos Islands"),
   ("bailiwick-of-jersey", "Jersey")].map (fun p => (p.1.data, p.2.data))

/-- Python `slug.replace("-", " ")`. -/
def dehyphen (s : Str) : Str := s.map (fun c => if c = '-' then ' ' else c)

/-- Python `text.title()` (ASCII model): a cased character is uppercased when
the preceding character is uncased and lowercased otherwise; the boolean
argument carries whether the preceding character was cased. -/
def pyTitleAux : Bool → Str → Str
  | _, [] => []
  | b, c :: t => (if b then c.toLower else c.toUpper) :: pyTitleAux c.isAlpha t

/-- Python `text.title()`. -/
def pyTitle (s : Str) : Str := pyTitleAux false s

/-- Dictionary lookup in COUNTRY_SLUG_MAP. -/
def slugFind (s : Str) : Option (Str × Str) := COUNTRY_SLUG_MAP.find? (fun p => p.1 == s)

/-- slug_to_country of merge_webcamtaxi.py (lines 65-70). -/
def slug_to_country (slug : Str) : Str :=
  match slugFind slug with
  | some p => p.2
  | none => pyTitle (dehyphen slug)

/-- COUNTRY_ALIASES of merge_webcams.py (lines 35-50). -/
def COUNTRY_ALIASES : List (Str × Str) :=
  [("England", "United Kingdom"),
   ("Wales", "United Kingdom"),
   ("Scotland", "United Kingdom"),
   ("Great Britain", "United Kingdom"),
   ("Bosnia And Herzegovina", "Bosnia and Herzegovina"),
   ("Bosnia-Herzegovina", "Bosnia and Herzegovina"),
   ("Turkiye", "Turkey"),
   ("Russian Federation", "Russia"),
   ("Slovak Republic", "Slovakia"),
   ("Virgin Islands, U.S.", "US Virgin Islands"),
   ("Virgin Islands, British", "British Virgin Islands")].map (fun p => (p.1.data, p.2.data))

/-- Python `not raw_country or not raw_country.strip()`: the string is empty
or consists of whitespace only. -/
def isBlankStr (s : Str) : Bool := s.all isPySpace

/-- Dictionary lookup in COUNTRY_ALIASES. -/
def aliasFind (s : Str) : Option (Str × Str) := COUNTRY_ALIASES.find? (fun p => p.1 == s)

/-- resolve_country of merge_webcams.py (lines 77-81). -/
def resolve_country (raw : Str) : Str :=
  if isBlankStr raw then str "Unknown"
  else
    match aliasFind raw with
    | some p => p.2
    | none => raw

/-- Head-of-key test used to show that a title-cased string can never be a
slug-map key (every key starts with a lowercase letter). -/
def headIsLower : Str → Bool
  | [] => false
  | c :: _ => c.isLower

/-! Concrete sample data for the witness theorems. -/

/-- A canonical record with no coordinates, used as worker-sample base. -/
def webBase : WebRecord :=
  { title := str "t", subtitle := str "s", url := none, mode := "automatic",
    radius := none, latitude := none, longitude := none, verified := none,
    source := "WCT", subregion := none }

/-- Sample webcamtaxi item A. -/
def wctItemA : WctItem := ⟨webBase, str "pageA", str "fallA"⟩

/-- Sample webcamtaxi item B. -/
def wctItemB : WctItem := ⟨webBase, str "pageB", str "fallB"⟩

/-- Sample outcomes: index 0 finds an iframe, index 1 fails. -/
def wctOutcomesAB : Nat → FetchResult :=
  fun i => if i = 0 then ⟨some (str "ifr"), true⟩ else ⟨none, false⟩

/-- Sample record for the smart-geocoder counterexample. -/
def smartSample : WebRecord :=
  { title := str "Cusco" , subtitle := str "view", url := some (str "u"),
    mode := "automatic", radius := some 500, latitude := none, longitude := none,
    verified := none, source := "SLW", subregion := none }

/-- Sample raw record kept by the classify main loop (C9 witness). -/
def rawKeep : RawRecord := ⟨str "Plaza Mayor cam", str "x", str "u", none, none⟩

/-- The classified output of `rawKeep`. -/
def rawKeepOut : RawRecord := ⟨str "Plaza Mayor cam", str "x", str "u", some "automatic", some 100⟩

/-- Sample raw record kept by the classify main loop (C7 witness). -/
def rawBeach : RawRecord := ⟨str "Bondi Beach cam", str "sea", str "u", none, none⟩

/-- The classified output of `rawBeach`. -/
def rawBeachOut : RawRecord := ⟨str "Bondi Beach cam", str "sea", str "u", some "automatic", some 200⟩

/-- An unverified WCT record, target of the retry pass (C10 witness). -/
def retryRec : WebRecord :=
  { title := str "r", subtitle := str "s", url := some (str "u"), mode := "automatic",
    radius := some 200, latitude := none, longitude := none, verified := some false,
    source := "WCT", subregion := none }

/-- A fetch that always fails (C10 witness). -/
def failFetch : WebRecord → RetryResult := fun _ => ⟨none, 0, false⟩

/-! Theorems. -/

/-- C1: whenever the combined lowercase title+subtitle text contains a
vague/large-area keyword, classify_record returns `("manual", 2500)`,
regardless of anything else (in particular of any specific-landmark keyword
also present). -/
theorem vague_keyword_dominates (h1 h2 : Str)
    (h : ∃ kw ∈ VAGUE_KEYWORDS, hasSub (combinedText h1 h2) kw = true) :
    classify_record h1 h2 = ("manual", 2500) := by
  have hc : VAGUE_KEYWORDS.any (fun kw => hasSub (combinedText h1 h2) kw) = true := by
    rcases h with ⟨kw, hk, hs⟩
    exact List.any_eq_true.mpr ⟨kw, hk, hs⟩
  unfold classify_record
  rw [if_pos hc]

/-- Witness for C1: a text that contains both the vague keyword "skyline" and
the landmark keyword "beach" is still classified `("manual", 2500)`. -/
theorem vague_keyword_dominates_witness :
    (∃ kw ∈ VAGUE_KEYWORDS,
        hasSub (combinedText (str "Rome - Skyline view") (str "beach panorama")) kw = true)
    ∧ classify_record (str "Rome - Skyline view") (str "beach panorama") = ("manual", 2500) :=
  ⟨by decide, vague_keyword_dominates (str "Rome - Skyline view") (str "beach panorama") (by decide)⟩

/-- C5: a geocode result is classified as an area exactly when the viewport
spans strictly more than `MAX_VIEWPORT_SPAN_DEG = 0.02` degrees on some axis;
spans of at most 0.02 degrees on both axes, and results with no viewport, are
points. -/
theorem viewport_area_classification :
    (∀ v : Viewport,
        (isAreaResult (some v) = true ↔
          MAX_VIEWPORT_SPAN_DEG < |v.ne_lat - v.sw_lat|
            ∨ MAX_VIEWPORT_SPAN_DEG < |v.ne_lng - v.sw_lng|)
      ∧ (isAreaResult (some v) = false ↔
          |v.ne_lat - v.sw_lat| ≤ MAX_VIEWPORT_SPAN_DEG
            ∧ |v.ne_lng - v.sw_lng| ≤ MAX_VIEWPORT_SPAN_DEG))
    ∧ isAreaResult none = false
    ∧ MAX_VIEWPORT_SPAN_DEG = 1 / 50 := by
  refine ⟨fun v => ⟨?_, ?_⟩, rfl, by norm_num [MAX_VIEWPORT_SPAN_DEG]⟩
  · simp [isAreaResult]
  · simp [isAreaResult, not_or, not_lt]

/-- C6 counterexample: on the Porto Seguro record the intersection strategy
returns the query "porto seguro praia de", which does not contain the token
"taperapuan" (neither as a whitespace token nor as a substring): the subtitle
tokenizes "taperapuan," with its comma attached, so the word fails the
intersection. -/
theorem porto_seguro_no_taperapuan :
    extract_search_query (str "Porto Seguro - Praia de Taperapuan Live cam")
        (str "Praia de Taperapuan, Porto Seguro") = some (str "porto seguro praia de")
    ∧ str "taperapuan" ∉ splitWs (str "porto seguro praia de")
    ∧ hasSub (str "porto seguro praia de") (str "taperapuan") = false := by
  refine ⟨by decide, by decide, by decide⟩

/-- C6 (amended): on the Porto Seguro record the intersection strategy returns
a non-empty query containing the tokens "porto", "seguro", "praia" and "de" —
but not "taperapuan", whose subtitle occurrence keeps its trailing comma. -/
theorem porto_seguro_query :
    ∃ q : Str,
      extract_search_query (str "Porto Seguro - Praia de Taperapuan Live cam")
          (str "Praia de Taperapuan, Porto Seguro") = some q
      ∧ q ≠ []
      ∧ str "porto" ∈ splitWs q ∧ str "seguro" ∈ splitWs q
      ∧ str "praia" ∈ splitWs q ∧ str "de" ∈ splitWs q
      ∧ str "taperapuan" ∉ splitWs q :=
  ⟨str "porto seguro praia de", by decide⟩

/-- C3 counterexample: in smart_geocoder.py an "area" result does not re-mark
the record's mode as manual, and does not set `verified` to `False` — the mode
stays "automatic" and `verified` stays unset. -/
theorem smart_area_mode_counterexample :
    (smartApply smartSample ⟨0, 0, true⟩).mode ≠ "manual"
    ∧ (smartApply smartSample ⟨0, 0, true⟩).verified ≠ some false := by
  constructor <;> simp [smartApply, smartSample]

/-- C3 (amended): a resolved lookup always stores the coordinates on the
record; in smart_geocoder.py a point result sets `verified = True` while an
area result leaves both `mode` and `verified` untouched; in
skyline_geocoder.py an area result re-marks the tag "manual" while a point
result keeps the tag. -/
theorem geocode_apply_policy :
    ∀ (r : WebRecord) (sr : SkyRecord) (g : GeoResult),
      (smartApply r g).latitude = some g.lat
      ∧ (smartApply r g).longitude = some g.lng
      ∧ (smartApply r g).verified = (if g.is_area then r.verified else some true)
      ∧ (smartApply r g).mode = r.mode
      ∧ (skylineApply sr g).lat = g.lat
      ∧ (skylineApply sr g).lng = g.lng
      ∧ (skylineApply sr g).tag = (if g.is_area then "manual" else sr.tag) := by
  intro r sr g
  rcases g with ⟨lat, lng, ia⟩
  cases ia <;> simp [smartApply, skylineApply]

/-- C8: the merge loop is append-only per canonical country: every post-merge
bucket is its pre-merge contents followed, in source order, by exactly the new
records that canonicalize to that country. -/
theorem merge_append_only :
    ∀ (α : Type) (buckets : Str → List α) (items : List (Str × α)) (c : Str),
      mergeAppend buckets items c
        = buckets c ++ (items.filter (fun cr => cr.1 == c)).map Prod.snd := by
  intro α buckets items
  induction items generalizing buckets with
  | nil => intro c; simp [mergeAppend]
  | cons p t ih =>
    intro c
    have hstep : mergeAppend buckets (p :: t)
        = mergeAppend (fun c' => if c' = p.1 then buckets c' ++ [p.2] else buckets c') t := by
      simp [mergeAppend]
    rw [hstep, ih]
    by_cases hc : p.1 = c
    · subst hc
      simp [List.filter_cons]
    · have hc' : (p.1 == c) = false := by simp [hc]
      simp [List.filter_cons, hc', Ne.symm hc]

/-- Helper: collecting the keyed results in any completion order fills slot
`j` with record `j`'s own outcome whenever `j` completed. -/
theorem collectResults_eq {α : Type} (outcomes : Nat → α) :
    ∀ (l : List Nat) (acc : Nat → Option α) (j : Nat),
      collectResults outcomes l acc j = if j ∈ l then some (outcomes j) else acc j := by
  intro l
  induction l with
  | nil => intro acc j; simp [collectResults]
  | cons i t ih =>
    intro acc j
    rw [collectResults, ih]
    by_cases hjt : j ∈ t
    · simp [hjt, List.mem_cons]
    · by_cases hji : j = i
      · simp [hjt, hji]
      · simp [hjt, hji, List.mem_cons]

/-- Helper: when every slot from `i` through the end of the list is filled
with the keyed outcome, the sequential apply loop equals the order-free
reference. -/
theorem applyAll_eq_applyPure {ρ σ α : Type} (f : ρ → α → σ) (bad : ρ → σ)
    (res : Nat → Option α) (outcomes : Nat → α) :
    ∀ (rs : List ρ) (i : Nat),
      (∀ j, j < rs.length → res (i + j) = some (outcomes (i + j))) →
      applyAll f bad res i rs = applyPure f outcomes i rs := by
  intro rs
  induction rs with
  | nil => intro i _; rfl
  | cons r t ih =>
    intro i h
    have h0 : res i = some (outcomes i) := by
      have := h 0 (by simp)
      simpa using this
    rw [applyAll, applyPure, h0]
    congr 1
    apply ih
    intro j hj
    have hlt : j + 1 < (r :: t).length := by simpa using Nat.succ_lt_succ hj
    have := h (j + 1) hlt
    have harith : i + (j + 1) = i + 1 + j := by omega
    rwa [harith] at this

/-- C2: for both worker pools (iframe extraction of merge_webcamtaxi.py and
URL verification of merge_webcams.py), provided every record index completed,
the final dataset equals the order-free pointwise application of each record's
own outcome — independent of the completion order — and the per-record policy
holds: a successful fetch yields `verified = True, radius = 10` (with the
iframe url installed), any failure yields `verified = False, radius = 200`
with the fallback url retained (webcamtaxi) or the original url untouched
(earthcam). -/
theorem worker_outcome_policy :
    ∀ (rs : List WctItem) (outcomes : Nat → FetchResult) (completions : List Nat),
      (∀ i ∈ List.range rs.length, i ∈ completions) →
      runWorkers applyWct (fun it => it.record) rs outcomes completions
          = applyPure applyWct outcomes 0 rs
      ∧ (∀ (it : WctItem) (o : FetchResult), fetchOk o = true →
            (applyWct it o).verified = some true
            ∧ (applyWct it o).radius = some VERIFIED_RADIUS
            ∧ (applyWct it o).url = some (o.iframe.getD []))
      ∧ (∀ (it : WctItem) (o : FetchResult), fetchOk o = false →
            (applyWct it o).verified = some false
            ∧ (applyWct it o).radius = some UNVERIFIED_RADIUS
            ∧ (applyWct it o).url = some it.fallbackUrl)
      ∧ (∀ (es : List WebRecord) (oks : Nat → Bool) (cs : List Nat),
            (∀ i ∈ List.range es.length, i ∈ cs) →
            runWorkers applyEw id es oks cs = applyPure applyEw oks 0 es)
      ∧ (∀ (w : WebRecord) (ok : Bool),
            (applyEw w ok).verified = some ok
            ∧ (applyEw w ok).radius = some (if ok then VERIFIED_RADIUS else UNVERIFIED_RADIUS)
            ∧ (applyEw w ok).url = w.url) := by
  intro rs outcomes completions h
  refine ⟨?_, ?_, ?_, ?_, ?_⟩
  · unfold runWorkers
    apply applyAll_eq_applyPure
    intro j hj
    rw [collectResults_eq]
    have : j ∈ completions := h j (List.mem_range.mpr hj)
    simp [this]
  · intro it o hok
    simp [applyWct, hok]
  · intro it o hok
    simp [applyWct, hok]
  · intro es oks cs hcs
    unfold runWorkers
    apply applyAll_eq_applyPure
    intro j hj
    rw [collectResults_eq]
    have : j ∈ cs := hcs j (List.mem_range.mpr hj)
    simp [this]
  · intro w ok
    simp [applyEw]

/-- Witness for C2: a two-record batch where index 0 succeeds and index 1
fails, collected in reversed completion order, equals the order-free result;
the policy conjuncts are exercised on both outcomes. -/
theorem worker_outcome_policy_witness :
    (runWorkers applyWct (fun it => it.record) [wctItemA, wctItemB] wctOutcomesAB [1, 0]
        = applyPure applyWct wctOutcomesAB 0 [wctItemA, wctItemB])
    ∧ (applyWct wctItemA ⟨some (str "ifr"), true⟩).verified = some true
    ∧ (applyWct wctItemB ⟨none, false⟩).url = some wctItemB.fallbackUrl :=
  ⟨(worker_outcome_policy [wctItemA, wctItemB] wctOutcomesAB [1, 0] (by decide)).1,
   ((worker_outcome_policy [wctItemA, wctItemB] wctOutcomesAB [1, 0] (by decide)).2.1
      wctItemA ⟨some (str "ifr"), true⟩ (by decide)).1,
   ((worker_outcome_policy [wctItemA, wctItemB] wctOutcomesAB [1, 0] (by decide)).2.2.1
      wctItemB ⟨none, false⟩ (by decide)).2.2⟩

/-- Helper: every record produced by processRecord keeps the input's title and
has its radius field set, and is only produced when the index-page test is
false. -/
theorem processRecord_spec (a r : RawRecord) (h : processRecord a = some r) :
    isIndexPage a.h1 = false ∧ r.h1 = a.h1 ∧ r.radius.isSome = true := by
  unfold processRecord at h
  by_cases hidx : isIndexPage a.h1 = true
  · rw [if_pos hidx] at h
    cases h
  · have hfalse : isIndexPage a.h1 = false := by
      cases hb : isIndexPage a.h1
      · rfl
      · exact absurd hb hidx
    rw [if_neg hidx] at h
    refine ⟨hfalse, ?_⟩
    by_cases htag : a.tag = some "manual"
    · rw [if_pos htag] at h
      by_cases hrad : a.radius = none
      · rw [if_pos hrad] at h
        cases Option.some.inj h
        exact ⟨rfl, rfl⟩
      · rw [if_neg hrad] at h
        cases Option.some.inj h
        exact ⟨rfl, Option.isSome_iff_ne_none.mpr hrad⟩
    · rw [if_neg htag] at h
      cases Option.some.inj h
      exact ⟨rfl, rfl⟩

/-- C9: no record whose title begins (case-insensitively) with "Live Cams in"
or "Liva Cams in" survives the classify main loop — such records are dropped
before both the already-manual branch and the classification branch. -/
theorem index_pages_dropped :
    ∀ (rs : List RawRecord) (r : RawRecord), r ∈ processRecords rs →
      startsWithStr (pyLower r.h1) (str "live cams in") = false
      ∧ startsWithStr (pyLower r.h1) (str "liva cams in") = false := by
  intro rs r hr
  rcases List.mem_filterMap.mp hr with ⟨a, _, ha⟩
  rcases processRecord_spec a r ha with ⟨hfalse, hh1, _⟩
  rw [hh1]
  unfold isIndexPage at hfalse
  simpa [Bool.or_eq_false_iff] using hfalse

/-- Witness for C9: a concrete kept record, whose title is not an index
page. -/
theorem index_pages_dropped_witness :
    startsWithStr (pyLower rawKeepOut.h1) (str "live cams in") = false
    ∧ startsWithStr (pyLower rawKeepOut.h1) (str "liva cams in") = false :=
  index_pages_dropped [rawKeep] rawKeepOut (by decide)

/-- Helper: every radius in the specific-keyword rule table is positive and
at most 2500. -/
theorem specificResult_bound (kw : Str) :
    0 < (specificResult kw).2 ∧ (specificResult kw).2 ≤ 2500 := by
  unfold specificResult
  rcases hf : SPECIFIC_RULES.find? (fun rule => rule.1 kw) with _ | rule
  · rw [hf]
    decide
  · rw [hf]
    show 0 < rule.2.2 ∧ rule.2.2 ≤ 2500
    have hmem : rule ∈ SPECIFIC_RULES := List.mem_of_find?_eq_some hf
    have hall : SPECIFIC_RULES.all
        (fun rule => decide (0 < rule.2.2) && decide (rule.2.2 ≤ 2500)) = true := by decide
    have := List.all_eq_true.mp hall rule hmem
    simp only [Bool.and_eq_true, decide_eq_true_eq] at this
    exact this

/-- Helper: classify_record always returns a radius in (0, 2500]. -/
theorem classify_record_radius_bound (h1 h2 : Str) :
    0 < (classify_record h1 h2).2 ∧ (classify_record h1 h2).2 ≤ 2500 := by
  unfold classify_record
  split
  · decide
  · split
    · exact specificResult_bound _
    · split
      · decide
      · decide

/-- Helper: estimate_radius_for_manual always returns a radius in
(0, 2500]. -/
theorem estimate_radius_bound (h1 h2 : Str) :
    0 < estimate_radius_for_manual h1 h2 ∧ estimate_radius_for_manual h1 h2 ≤ 2500 := by
  unfold estimate_radius_for_manual
  split_ifs <;> decide

/-- C7: every radius assigned by classify_record, by
estimate_radius_for_manual, or by the verification/extraction workers is a
positive integer of at most 2500, and every record leaving the classify main
loop or a worker pool has its radius field set. -/
theorem radius_always_bounded :
    ∀ (h1 h2 : Str) (it : WctItem) (o : FetchResult) (w : WebRecord) (ok : Bool)
      (rs : List RawRecord) (r : RawRecord),
      (0 < (classify_record h1 h2).2 ∧ (classify_record h1 h2).2 ≤ 2500)
      ∧ (0 < estimate_radius_for_manual h1 h2 ∧ estimate_radius_for_manual h1 h2 ≤ 2500)
      ∧ ((applyWct it o).radius.isSome = true
          ∧ 0 < (applyWct it o).radius.getD 0 ∧ (applyWct it o).radius.getD 0 ≤ 2500)
      ∧ ((applyEw w ok).radius.isSome = true
          ∧ 0 < (applyEw w ok).radius.getD 0 ∧ (applyEw w ok).radius.getD 0 ≤ 2500)
      ∧ (r ∈ processRecords rs → r.radius.isSome = true) := by
  intro h1 h2 it o w ok rs r
  refine ⟨classify_record_radius_bound h1 h2, estimate_radius_bound h1 h2, ?_, ?_, ?_⟩
  · cases hok : fetchOk o <;>
      simp [applyWct, hok, VERIFIED_RADIUS, UNVERIFIED_RADIUS]
  · cases ok <;> simp [applyEw, VERIFIED_RADIUS, UNVERIFIED_RADIUS]
  · intro hr
    rcases List.mem_filterMap.mp hr with ⟨a, _, ha⟩
    exact (processRecord_spec a r ha).2.2

/-- Witness for C7: the bounds instantiated on concrete text, and the
radius-set fact on a concrete record that passed the classify loop. -/
theorem radius_always_bounded_witness :
    (0 < (classify_record (str "Bondi Beach cam") (str "sea")).2
      ∧ (classify_record (str "Bondi Beach cam") (str "sea")).2 ≤ 2500)
    ∧ rawBeachOut.radius.isSome = true :=
  ⟨(radius_always_bounded (str "Bondi Beach cam") (str "sea") wctItemA ⟨none, false⟩
      webBase true [rawBeach] rawBeachOut).1,
   (radius_always_bounded (str "Bondi Beach cam") (str "sea") wctItemA ⟨none, false⟩
      webBase true [rawBeach] rawBeachOut).2.2.2.2 (by decide)⟩

/-- Helper: the record at position `i` of the retry pass, read with `getD`. -/
theorem retryPass_getD (fetch : WebRecord → RetryResult) (rs : List WebRecord)
    (i : Nat) (d : WebRecord) :
    (retryPass fetch rs).getD i d
      = (rs[i]?.map
          (fun r => if isRetryTarget r then applyRetry r (fetch r) else r)).getD d := by
  rw [retryPass, List.getD_eq_getElem?_getD, List.getElem?_map]

/-- C10: the retry pass re-attempts exactly the records with source "WCT" and
`verified` exactly `False`; a failed retry (no success or no iframe) leaves
the record — url, verified and radius included — completely unchanged, as does
the pass as a whole for every non-target record. -/
theorem retry_targets_and_frame :
    ∀ (fetch : WebRecord → RetryResult) (rs : List WebRecord),
      (∀ r : WebRecord, r ∈ selectTargets rs ↔
          r ∈ rs ∧ r.source = "WCT" ∧ r.verified = some false)
      ∧ (∀ (r : WebRecord) (o : RetryResult), retryOk o = false → applyRetry r o = r)
      ∧ (∀ (i : Nat) (d : WebRecord), isRetryTarget (rs.getD i d) = false →
          (retryPass fetch rs).getD i d = rs.getD i d)
      ∧ (∀ (i : Nat) (d : WebRecord), isRetryTarget (rs.getD i d) = true →
          retryOk (fetch (rs.getD i d)) = false →
          (retryPass fetch rs).getD i d = rs.getD i d) := by
  intro fetch rs
  refine ⟨?_, ?_, ?_, ?_⟩
  · intro r
    rw [selectTargets, List.mem_filter]
    unfold isRetryTarget
    simp [and_assoc]
  · intro r o ho
    unfold applyRetry
    rw [ho]
    rfl
  · intro i d htarget
    rw [retryPass_getD]
    rcases h : rs[i]? with _ | r
    · rw [List.getD_eq_getElem?_getD, h]
      rfl
    · have hr : rs.getD i d = r := by rw [List.getD_eq_getElem?_getD, h]; rfl
      rw [hr] at htarget
      rw [List.getD_eq_getElem?_getD, h]
      simp [htarget]
  · intro i d htarget hfail
    rw [retryPass_getD]
    rcases h : rs[i]? with _ | r
    · rw [List.getD_eq_getElem?_getD, h]
      rfl
    · have hr : rs.getD i d = r := by rw [List.getD_eq_getElem?_getD, h]; rfl
      rw [hr] at htarget hfail
      rw [List.getD_eq_getElem?_getD, h]
      simp [htarget, applyRetry, hfail]

/-- Witness for C10: a concrete unverified WCT record whose retry fails keeps
all its fields, both through applyRetry and through the whole pass. -/
theorem retry_targets_and_frame_witness :
    applyRetry retryRec ⟨none, 0, false⟩ = retryRec
    ∧ (retryPass failFetch [retryRec]).getD 0 retryRec = [retryRec].getD 0 retryRec :=
  ⟨(retry_targets_and_frame failFetch [retryRec]).2.1 retryRec ⟨none, 0, false⟩ (by decide),
   (retry_targets_and_frame failFetch [retryRec]).2.2.2 0 retryRec (by decide) (by decide)⟩

/-! ASCII case-function lemmas, for the title-casing idempotence proofs. -/

/-- Helper: Char.ofNat inverts toNat on valid code points. -/
theorem char_toNat_ofNat {n : Nat} (h : n.isValidChar) : (Char.ofNat n).toNat = n := by
  rw [Char.ofNat, dif_pos h]
  rfl

/-- Helper: character equality is code-point equality. -/
theorem char_eq_iff_toNat {c d : Char} : c = d ↔ c.toNat = d.toNat := by
  constructor
  · intro h; rw [h]
  · intro h; exact Char.ext (UInt32.toNat.inj h)

/-- Helper: the code point of Char.toLower. -/
theorem toLower_toNat (c : Char) :
    c.toLower.toNat = if c.toNat ≥ 65 ∧ c.toNat ≤ 90 then c.toNat + 32 else c.toNat := by
  unfold Char.toLower
  by_cases h : c.toNat ≥ 65 ∧ c.toNat ≤ 90
  · rw [if_pos h, if_pos h, char_toNat_ofNat (Or.inl (by omega))]
  · rw [if_neg h, if_neg h]

/-- Helper: the code point of Char.toUpper. -/
theorem toUpper_toNat (c : Char) :
    c.toUpper.toNat = if c.toNat ≥ 97 ∧ c.toNat ≤ 122 then c.toNat - 32 else c.toNat := by
  unfold Char.toUpper
  by_cases h : c.toNat ≥ 97 ∧ c.toNat ≤ 122
  · rw [if_pos h, if_pos h, char_toNat_ofNat (Or.inl (by omega))]
  · rw [if_neg h, if_neg h]

/-- Helper: booleans agreeing as propositions are equal. -/
theorem bool_eq_of_iff {a b : Bool} (h : a = true ↔ b = true) : a = b := by
  cases a <;> cases b <;> simp_all

/-- Helper: isLower via code points. -/
theorem char_isLower_iff (c : Char) : c.isLower = true ↔ 97 ≤ c.toNat ∧ c.toNat ≤ 122 := by
  simp only [Char.isLower, Bool.and_eq_true, decide_eq_true_eq]
  exact ⟨fun h => h, fun h => h⟩

/-- Helper: isUpper via code points. -/
theorem char_isUpper_iff (c : Char) : c.isUpper = true ↔ 65 ≤ c.toNat ∧ c.toNat ≤ 90 := by
  simp only [Char.isUpper, Bool.and_eq_true, decide_eq_true_eq]
  exact ⟨fun h => h, fun h => h⟩

/-- Helper: isAlpha via code points. -/
theorem char_isAlpha_iff (c : Char) :
    c.isAlpha = true ↔ (65 ≤ c.toNat ∧ c.toNat ≤ 90) ∨ (97 ≤ c.toNat ∧ c.toNat ≤ 122) := by
  simp only [Char.isAlpha, Bool.or_eq_true, char_isUpper_iff, char_isLower_iff]

/-- Helper: toLower is idempotent. -/
theorem toLower_toLower (c : Char) : c.toLower.toLower = c.toLower := by
  rw [char_eq_iff_toNat, toLower_toNat, toLower_toNat]
  split_ifs <;> omega

/-- Helper: toUpper is idempotent. -/
theorem toUpper_toUpper (c : Char) : c.toUpper.toUpper = c.toUpper := by
  rw [char_eq_iff_toNat, toUpper_toNat, toUpper_toNat]
  split_ifs <;> omega

/-- Helper: toLower preserves letterhood. -/
theorem isAlpha_toLower (c : Char) : c.toLower.isAlpha = c.isAlpha := by
  apply bool_eq_of_iff
  rw [char_isAlpha_iff, char_isAlpha_iff, toLower_toNat]
  split_ifs <;> omega

/-- Helper: toUpper preserves letterhood. -/
theorem isAlpha_toUpper (c : Char) : c.toUpper.isAlpha = c.isAlpha := by
  apply bool_eq_of_iff
  rw [char_isAlpha_iff, char_isAlpha_iff, toUpper_toNat]
  split_ifs <;> omega

/-- Helper: toUpper never yields a lowercase ASCII letter. -/
theorem isLower_toUpper (c : Char) : c.toUpper.isLower = false := by
  cases hb : c.toUpper.isLower with
  | false => rfl
  | true =>
    exfalso
    have h2 := (char_isLower_iff _).mp hb
    rw [toUpper_toNat] at h2
    split_ifs at h2 <;> omega

/-- Helper: toLower maps non-hyphens to non-hyphens. -/
theorem toLower_ne_hyphen {c : Char} (h : ¬ c = '-') : ¬ c.toLower = '-' := by
  intro he
  rw [char_eq_iff_toNat] at he h
  rw [show ('-').toNat = 45 from rfl] at he h
  rw [toLower_toNat] at he
  split_ifs at he <;> omega

/-- Helper: toUpper maps non-hyphens to non-hyphens. -/
theorem toUpper_ne_hyphen {c : Char} (h : ¬ c = '-') : ¬ c.toUpper = '-' := by
  intro he
  rw [char_eq_iff_toNat] at he h
  rw [show ('-').toNat = 45 from rfl] at he h
  rw [toUpper_toNat] at he
  split_ifs at he <;> omega

/-- Helper: the title-casing pass is idempotent (from any starting state). -/
theorem pyTitleAux_idem : ∀ (l : Str) (b : Bool), pyTitleAux b (pyTitleAux b l) = pyTitleAux b l := by
  intro l
  induction l with
  | nil => intro b; rfl
  | cons c t ih =>
    intro b
    cases b with
    | false =>
      show c.toUpper.toUpper :: pyTitleAux c.toUpper.isAlpha (pyTitleAux c.isAlpha t)
          = c.toUpper :: pyTitleAux c.isAlpha t
      rw [toUpper_toUpper, isAlpha_toUpper, ih]
    | true =>
      show c.toLower.toLower :: pyTitleAux c.toLower.isAlpha (pyTitleAux c.isAlpha t)
          = c.toLower :: pyTitleAux c.isAlpha t
      rw [toLower_toLower, isAlpha_toLower, ih]

/-- Helper: title-casing a hyphen-free string yields a hyphen-free string. -/
theorem pyTitleAux_no_hyphen :
    ∀ (l : Str) (b : Bool), (∀ c ∈ l, ¬ c = '-') →
      ∀ c' ∈ pyTitleAux b l, ¬ c' = '-' := by
  intro l
  induction l with
  | nil =>
    intro b _ c' hc'
    simp [pyTitleAux] at hc'
  | cons c t ih =>
    intro b h c' hc'
    rw [pyTitleAux] at hc'
    rcases List.mem_cons.mp hc' with he | ht
    · subst he
      cases b with
      | false =>
        simpa using toUpper_ne_hyphen (h c (List.mem_cons_self c t))
      | true =>
        simpa using toLower_ne_hyphen (h c (List.mem_cons_self c t))
    · exact ih c.isAlpha (fun x hx => h x (List.mem_cons_of_mem c hx)) c' ht

/-- Helper: dehyphenated strings are hyphen-free. -/
theorem dehyphen_no_hyphen : ∀ (s : Str), ∀ c ∈ dehyphen s, ¬ c = '-' := by
  intro s c hc
  rcases List.mem_map.mp hc with ⟨a, _, ha⟩
  by_cases h : a = '-'
  · rw [if_pos h] at ha
    rw [← ha]
    decide
  · rw [if_neg h] at ha
    rw [← ha]
    exact h

/-- Helper: dehyphenation fixes hyphen-free strings. -/
theorem dehyphen_id {l : Str} (h : ∀ c ∈ l, ¬ c = '-') : dehyphen l = l := by
  unfold dehyphen
  conv_rhs => rw [← List.map_id l]
  apply List.map_congr_left
  intro a ha
  rw [if_neg (h a ha)]
  rfl

/-- Helper: a title-cased string is never a slug-map key (keys begin with a
lowercase letter, title-case output cannot). -/
theorem slugFind_pyTitle (l : Str) : slugFind (pyTitle l) = none := by
  unfold slugFind
  rw [List.find?_eq_none]
  intro p hp
  have hall : COUNTRY_SLUG_MAP.all (fun q => headIsLower q.1) = true := by decide
  have hk : headIsLower p.1 = true := List.all_eq_true.mp hall p hp
  intro hbeq
  have heq : p.1 = pyTitle l := eq_of_beq hbeq
  rw [heq] at hk
  cases l with
  | nil => simp [pyTitle, pyTitleAux, headIsLower] at hk
  | cons c t =>
    have hh : headIsLower (pyTitle (c :: t)) = (c.toUpper).isLower := rfl
    rw [hh, isLower_toUpper] at hk
    cases hk

/-- C4 counterexample: the slug canonicalizer is not idempotent — its output
"Bosnia and Herzegovina" re-canonicalizes to "Bosnia And Herzegovina". -/
theorem slug_canonicalize_not_idem :
    slug_to_country (slug_to_country (str "bosnia-herzegovina"))
      ≠ slug_to_country (str "bosnia-herzegovina") := by decide

/-- C4 (amended): the display-name canonicalizer resolve_country is idempotent
on every input; the slug canonicalizer slug_to_country is idempotent on every
input except those whose canonical output is "Bosnia and Herzegovina" or
"DR Congo" (the only two map values that are not title-case fixed points). -/
theorem country_canonicalize_idem :
    ∀ x : Str,
      resolve_country (resolve_country x) = resolve_country x
      ∧ (slug_to_country x = str "Bosnia and Herzegovina"
         ∨ slug_to_country x = str "DR Congo"
         ∨ slug_to_country (slug_to_country x) = slug_to_country x) := by
  intro x
  constructor
  · by_cases hb : isBlankStr x = true
    · have h1 : resolve_country x = str "Unknown" := by
        unfold resolve_country
        rw [if_pos hb]
      rw [h1]
      decide
    · rcases ha : aliasFind x with _ | p
      · have h1 : resolve_country x = x := by
          unfold resolve_country
          rw [if_neg hb, ha]
        rw [h1]
        exact h1
      · have h1 : resolve_country x = p.2 := by
          unfold resolve_country
          rw [if_neg hb, ha]
        rw [h1]
        have hall : COUNTRY_ALIASES.all (fun q => resolve_country q.2 == q.2) = true := by
          decide
        have hp : p ∈ COUNTRY_ALIASES := List.mem_of_find?_eq_some ha
        exact eq_of_beq (List.all_eq_true.mp hall p hp)
  · rcases hs : slugFind x with _ | p
    · right; right
      have h1 : slug_to_country x = pyTitle (dehyphen x) := by
        unfold slug_to_country
        rw [hs]
      rw [h1]
      have h2 : slug_to_country (pyTitle (dehyphen x))
          = pyTitle (dehyphen (pyTitle (dehyphen x))) := by
        unfold slug_to_country
        rw [slugFind_pyTitle]
      rw [h2]
      have h3 : dehyphen (pyTitle (dehyphen x)) = pyTitle (dehyphen x) :=
        dehyphen_id (pyTitleAux_no_hyphen (dehyphen x) false (dehyphen_no_hyphen x))
      rw [h3]
      exact pyTitleAux_idem (dehyphen x) false
    · have h1 : slug_to_country x = p.2 := by
        unfold slug_to_country
        rw [hs]
      have hp : p ∈ COUNTRY_SLUG_MAP := List.mem_of_find?_eq_some hs
      have hall : COUNTRY_SLUG_MAP.all
          (fun q => (q.2 == str "Bosnia and Herzegovina") || (q.2 == str "DR Congo")
            || (slug_to_country q.2 == q.2)) = true := by decide
      have h3 := List.all_eq_true.mp hall p hp
      simp only [Bool.or_eq_true] at h3
      rcases h3 with (h3 | h3) | h3
      · left
        rw [h1]
        exact eq_of_beq h3
      · right; left
        rw [h1]
        exact eq_of_beq h3
      · right; right
        rw [h1]
        exact eq_of_beq h3

end Webcam
